import Mathlib

/-!
Verification of the image-customization shell script (`src/docker_build.sh`)
and the orchestration notebook (`walkthrough.ipynb`) of the
extending-sagemaker-xgboost-algorithm repository.

The script's string manipulations (bash substring slicing, the `expr` BRE
match used for the region, the `[[ =~ ]]` ERE match used for algorithm and
version, and the composed repository / image names) are embedded as
executable Lean functions on `String` / `List Char`; the notebook's path
templates, handoff file and result tabulation are embedded likewise.
-/

/-- Boolean prefix test on character lists. -/
def isPrefixL : List Char → List Char → Bool
  | [], _ => true
  | _ :: _, [] => false
  | a :: as, b :: bs => a = b && isPrefixL as bs

/-- Does `pat` occur as a contiguous run anywhere in the list? -/
def hasOccur (pat : List Char) : List Char → Bool
  | [] => pat.isEmpty
  | a :: rest => isPrefixL pat (a :: rest) || hasOccur pat rest

/-- Does the character `c` occur in the list? -/
def hasCharL (c : Char) : List Char → Bool
  | [] => false
  | a :: rest => a = c || hasCharL c rest

/-- Split at the LAST occurrence of the character `c`: returns
(everything before it, everything after it), or `none` when `c` is absent.
This is the semantics of a greedy `.*` immediately followed by `c` in a
POSIX regular expression. -/
def splitLastChar (c : Char) : List Char → Option (List Char × List Char)
  | [] => none
  | a :: rest =>
    match splitLastChar c rest with
    | some (p, q) => some (a :: p, q)
    | none => if a = c then some ([], rest) else none

/-- The part of the list strictly before the LAST occurrence of `pat`,
or `none` when `pat` does not occur. This is the semantics of the greedy
group in the anchored BRE `\(.*\)pat`. -/
def splitLastPat (pat : List Char) : List Char → Option (List Char)
  | [] => if pat.isEmpty then some [] else none
  | a :: rest =>
    match splitLastPat pat rest with
    | some p => some (a :: p)
    | none => if isPrefixL pat (a :: rest) then some [] else none

/-- `docker_build.sh` line 13: `base_account=${base_image:0:12}` —
the first 12 characters of the base image reference. -/
def base_account (base_image : String) : String :=
  String.mk (base_image.data.take 12)

/-- `docker_build.sh` line 14:
`` base_region=`expr "${base_image:21}" : '\(.*\)\.amazon'` `` —
`expr`'s anchored BRE match on the suffix of the reference starting at
character offset 21; the greedy group captures everything before the last
occurrence of ".amazon", and `expr` yields the empty string on no match. -/
def base_region (base_image : String) : String :=
  match splitLastPat (".amazon".data) (base_image.data.drop 21) with
  | some p => String.mk p
  | none => ""

/-- `docker_build.sh` lines 15-16: POSIX ERE match of `.*/(.*):(.*)`
against the base image reference. Leftmost-longest semantics: the first
greedy `.*` runs to the last `/` still followed by a `:`, the first group
then runs to the last `:` of the remainder. Equivalently: split at the
last `:` of the whole string, then split the part before it at its last
`/`; the match fails iff either split fails. -/
def bashRegexAlgVer (s : List Char) : Option (List Char × List Char) :=
  match splitLastChar ':' s with
  | none => none
  | some (pre, ver) =>
    match splitLastChar '/' pre with
    | none => none
    | some (_, alg) => some (alg, ver)

/-- `docker_build.sh` line 17: `algorithm=${BASH_REMATCH[1]}` — the first
capture group, or the empty string when the `[[ =~ ]]` match failed
(the script does not test the match status, `BASH_REMATCH` is unset). -/
def scriptAlgorithm (base_image : String) : String :=
  match bashRegexAlgVer base_image.data with
  | some (alg, _) => String.mk alg
  | none => ""

/-- `docker_build.sh` line 18: `version=${BASH_REMATCH[2]}` — the second
capture group, or the empty string when the match failed. -/
def scriptVersion (base_image : String) : String :=
  match bashRegexAlgVer base_image.data with
  | some (_, ver) => String.mk ver
  | none => ""

/-- `docker_build.sh` line 10: `namespace='custom_images'`. -/
def namespaceVar : String := "custom_images"

/-- The destination repository name used by both the existence check and
the creation call (`docker_build.sh` lines 43 and 46):
`"${namespace}/${algorithm}-${version}"`. -/
def repoName (base_image : String) : String :=
  namespaceVar ++ "/" ++ scriptAlgorithm base_image ++ "-" ++ scriptVersion base_image

/-- `docker_build.sh` line 49:
`fullname="${account}.dkr.ecr.${region}.amazonaws.com/${namespace}/${algorithm}-${version}"`. -/
def fullname (account region base_image : String) : String :=
  account ++ ".dkr.ecr." ++ region ++ ".amazonaws.com/" ++ repoName base_image

theorem data_append (s t : String) : (s ++ t).data = s.data ++ t.data := by
  cases s; cases t; rfl

theorem str_ext {s t : String} (h : s.data = t.data) : s = t := by
  cases s; cases t; exact congrArg String.mk h

theorem mk_data (s : String) : String.mk s.data = s := by
  cases s; rfl

theorem isPrefixL_append (pat tail : List Char) : isPrefixL pat (pat ++ tail) = true := by
  induction pat with
  | nil => rfl
  | cons a as ih => simp [isPrefixL, ih]

theorem splitLastChar_eq_none (c : Char) (l : List Char) (h : hasCharL c l = false) :
    splitLastChar c l = none := by
  induction l with
  | nil => rfl
  | cons a rest ih =>
    simp only [hasCharL, Bool.or_eq_false_iff, decide_eq_false_iff_not] at h
    simp [splitLastChar, ih h.2, h.1]

theorem splitLastChar_append (c : Char) (pre suf : List Char) (h : hasCharL c suf = false) :
    splitLastChar c (pre ++ c :: suf) = some (pre, suf) := by
  induction pre with
  | nil => simp [splitLastChar, splitLastChar_eq_none c suf h]
  | cons a pre' ih => simp [splitLastChar, ih]

theorem splitLastPat_eq_none (pat : List Char) (l : List Char)
    (h : hasOccur pat l = false) : splitLastPat pat l = none := by
  induction l with
  | nil =>
    simp only [hasOccur] at h
    simp [splitLastPat, h]
  | cons a rest ih =>
    simp only [hasOccur, Bool.or_eq_false_iff] at h
    simp [splitLastPat, ih h.2, h.1]

theorem splitLastPat_append (pat pre tail : List Char) (c : Char) (pat' : List Char)
    (hpat : pat = c :: pat')
    (hno : hasOccur pat (pat' ++ tail) = false) :
    splitLastPat pat (pre ++ (pat ++ tail)) = some pre := by
  induction pre with
  | nil =>
    subst hpat
    show splitLastPat (c :: pat') (c :: (pat' ++ tail)) = some []
    have hp : isPrefixL (c :: pat') (c :: (pat' ++ tail)) = true := by
      simpa using isPrefixL_append (c :: pat') tail
    simp only [splitLastPat]
    rw [splitLastPat_eq_none _ _ hno]
    simp [hp]
  | cons a pre' ih =>
    show splitLastPat pat (a :: (pre' ++ (pat ++ tail))) = some (a :: pre')
    simp only [splitLastPat]
    rw [ih]

/-- `docker_build.sh` line 33: the one build argument of
`docker build --build-arg xgboost_path="${xgboost_path}/algorithm_mode" .`,
as the (name, value) list of `--build-arg` options, where `xgboost_path`
is the directory located inside the container by the `find` name search
(line 31). -/
def dockerBuildArgs (xgboost_path : String) : List (String × String) :=
  [("xgboost_path", xgboost_path ++ "/algorithm_mode")]

/-- `docker_build.sh` line 43: `aws ecr describe-repositories
--repository-names <name>` exits 0 exactly when the repository exists in
the registry, modelled as a list of repository names. -/
def describeRepositoriesOk (repos : List String) (name : String) : Bool :=
  repos.contains name

/-- `docker_build.sh` lines 43-47: run the existence check, and invoke
`aws ecr create-repository` only when the check exited non-zero. Returns
the registry state afterwards and whether creation was invoked. -/
def ensureRepository (repos : List String) (name : String) : List String × Bool :=
  if describeRepositoriesOk repos name then (repos, false) else (name :: repos, true)

/-- `docker_build.sh` lines 2-9: the script takes the base image from its
first argument when that is non-empty (`[ -z "$1" ]` false), and otherwise
reads it from the handoff file `base_image_uri.txt`. `none` models an
absent argument. -/
def scriptBaseImage (arg : Option String) (base_image_uri_txt : String) : String :=
  match arg with
  | none => base_image_uri_txt
  | some a => if a = "" then base_image_uri_txt else a

/-- `walkthrough.ipynb` image-build cell:
`with open('src/base_image_uri.txt','w+') as f: f.write(xgboost_container)`
— the handoff file's contents after the orchestration step writes it. -/
def writeBaseImageUri (xgboost_container : String) : String := xgboost_container

/-- `walkthrough.ipynb` image-build cell:
`custom_container=f"{account}.dkr.ecr.{region}.amazonaws.com/custom_images/sagemaker-xgboost-{version}"`. -/
def customContainer (account region version : String) : String :=
  account ++ ".dkr.ecr." ++ region ++ ".amazonaws.com/custom_images/sagemaker-xgboost-" ++ version

/-- `walkthrough.ipynb` data-staging cell: the three fixed data categories
of the `for data_category in ["train", "test", "validation"]` loop. -/
def categories : List String := ["train", "test", "validation"]

/-- `walkthrough.ipynb` data-staging cell:
`data_key = "{0}/{1}/abalone.{1}".format(data_prefix, data_category)`. -/
def dataKey ( data_prefix category : String) : String :=
  data_prefix ++ "/" ++ category ++ "/abalone." ++ category

/-- `walkthrough.ipynb` data-staging cell:
`output_key = "{0}/{1}/abalone.{1}".format(output_prefix, data_category)`. -/
def outputKey ( output_prefix category : String) : String :=
  output_prefix ++ "/" ++ category ++ "/abalone." ++ category

/-- `walkthrough.ipynb` data-staging cell: the copy performed per loop
iteration (download from the source key, upload to the destination key),
listed as (source key, destination key) pairs in loop order. -/
def copyOps ( data_prefix output_prefix : String) : List (String × String) :=
  categories.map (fun c => (dataKey data_prefix c, outputKey output_prefix c))

/-- Comma splitting of one output line, the field separation `pd.read_csv`
applies to the batch-transform output (accumulator holds the current field
reversed). -/
def splitCommaAux (cur : List Char) : List Char → List (List Char)
  | [] => [cur.reverse]
  | c :: rest =>
    if c = ',' then cur.reverse :: splitCommaAux [] rest
    else splitCommaAux (c :: cur) rest

/-- One comma-separated row of the batch-transform output, as a list of
fields. -/
def parseCsvLine (s : String) : List String :=
  (splitCommaAux [] s.data).map String.mk

/-- `walkthrough.ipynb` result cell: `usecols=[0,1,3,4,5,6,7,8,9,10]` —
the column indices `pd.read_csv` keeps from each row (index 2, the
always-zero label column, is skipped). -/
def usecolsList : List Nat := [0, 1, 3, 4, 5, 6, 7, 8, 9, 10]

/-- `walkthrough.ipynb` result cell: the ten column names given to
`pd.read_csv` for the kept columns. -/
def colNames : List String :=
  ["prediction", "base_values", "shap 1", "shap 2", "shap 3", "shap 4",
   "shap 5", "shap 6", "shap 7", "shap 8"]

/-- The result-tabulation step applied to one row (list of fields): keep
exactly the fields at the `usecols` indices, in that order; fails when the
row is too short for some requested index. -/
def tabulateRow (row : List String) : Option (List String) :=
  usecolsList.mapM (fun i => row.get? i)

/-- For a reference of the shape `<p>/<name>:<tag>` where `name` contains
no `/` and `tag` contains no `:`, the `[[ =~ ]]` match succeeds with
groups `name` and `tag`. -/
theorem bashRegexAlgVer_shape (p name tag : String)
    (hn : hasCharL '/' name.data = false)
    (ht : hasCharL ':' tag.data = false) :
    bashRegexAlgVer (p ++ "/" ++ name ++ ":" ++ tag).data
      = some (name.data, tag.data) := by
  have hdata : (p ++ "/" ++ name ++ ":" ++ tag).data
      = (p.data ++ '/' :: name.data) ++ ':' :: tag.data := by
    simp only [data_append, List.append_assoc]
    rfl
  rw [hdata]
  simp only [bashRegexAlgVer, splitLastChar_append ':' _ _ ht,
    splitLastChar_append '/' _ _ hn]

/-- The two variables extracted from a reference of that shape. -/
theorem parse_shape (p name tag : String)
    (hn : hasCharL '/' name.data = false)
    (ht : hasCharL ':' tag.data = false) :
    scriptAlgorithm (p ++ "/" ++ name ++ ":" ++ tag) = name ∧
    scriptVersion (p ++ "/" ++ name ++ ":" ++ tag) = tag := by
  unfold scriptAlgorithm scriptVersion
  rw [bashRegexAlgVer_shape p name tag hn ht]
  exact ⟨mk_data name, mk_data tag⟩

/-- C1: for every image reference of the documented registry-path shape,
ending in `/<name>:<tag>` with `name` and `tag` free of `/` and `:`, the
fixed-pattern match sets `algorithm` to the segment between the last `/`
and the last `:` (that is, `name`) and `version` to the segment after the
last `:` (that is, `tag`). -/
theorem c1_parse_algorithm_version (p name tag : String)
    (h1 : hasCharL '/' name.data = false)
    (_h2 : hasCharL ':' name.data = false)
    (_h3 : hasCharL '/' tag.data = false)
    (h4 : hasCharL ':' tag.data = false) :
    scriptAlgorithm (p ++ "/" ++ name ++ ":" ++ tag) = name ∧
    scriptVersion (p ++ "/" ++ name ++ ":" ++ tag) = tag :=
  parse_shape p name tag h1 h4

/-- C1 witness: the reference ending in `/xgboost:1.2-2` yields
algorithm `xgboost` and version `1.2-2`. -/
theorem c1_parse_algorithm_version_witness :
    scriptAlgorithm "246618743249.dkr.ecr.us-west-2.amazonaws.com/xgboost:1.2-2"
      = "xgboost" ∧
    scriptVersion "246618743249.dkr.ecr.us-west-2.amazonaws.com/xgboost:1.2-2"
      = "1.2-2" :=
  c1_parse_algorithm_version "246618743249.dkr.ecr.us-west-2.amazonaws.com"
    "xgboost" "1.2-2" (by decide) (by decide) (by decide) (by decide)

/-- C5: when the base image reference does not match the fixed regex,
execution continues and `algorithm` and `version` stay empty, and the
empty values still flow into the destination repository name and the
push target `fullname`. -/
theorem c5_no_match_empty_downstream (base_image account region : String)
    (h : bashRegexAlgVer base_image.data = none) :
    scriptAlgorithm base_image = "" ∧
    scriptVersion base_image = "" ∧
    repoName base_image = "custom_images/-" ∧
    fullname account region base_image
      = account ++ ".dkr.ecr." ++ region ++ ".amazonaws.com/custom_images/-" := by
  have ha : scriptAlgorithm base_image = "" := by
    unfold scriptAlgorithm
    rw [h]
  have hv : scriptVersion base_image = "" := by
    unfold scriptVersion
    rw [h]
  have hr : repoName base_image = "custom_images/-" := by
    unfold repoName namespaceVar
    rw [ha, hv]
    rfl
  refine ⟨ha, hv, hr, ?_⟩
  unfold fullname
  rw [hr]
  apply str_ext
  simp only [data_append, List.append_assoc]
  rfl

/-- C5 witness: a reference with neither `/` nor `:` fails the match and
produces the degenerate repository name and push target. -/
theorem c5_no_match_empty_downstream_witness :
    scriptAlgorithm "noslashnocolon" = "" ∧
    scriptVersion "noslashnocolon" = "" ∧
    repoName "noslashnocolon" = "custom_images/-" ∧
    fullname "111122223333" "us-west-2" "noslashnocolon"
      = "111122223333.dkr.ecr.us-west-2.amazonaws.com/custom_images/-" :=
  c5_no_match_empty_downstream "noslashnocolon" "111122223333" "us-west-2" (by decide)

/-- C6: for a base reference of the documented shape
`<12-digit-account>.dkr.ecr.<region>.amazonaws.com/<rest>` (with no
second occurrence of ".amazon" after the first), `base_account` is the
first 12 characters — the account — and `base_region` is the substring
from character offset 21 up to the following ".amazon" — the region. -/
theorem c6_base_account_region (acct region rest : String)
    (h12 : acct.data.length = 12)
    (hno : hasOccur ".amazon".data ("amazonaws.com/".data ++ rest.data) = false) :
    base_account (acct ++ ".dkr.ecr." ++ region ++ ".amazonaws.com/" ++ rest) = acct ∧
    base_region (acct ++ ".dkr.ecr." ++ region ++ ".amazonaws.com/" ++ rest) = region := by
  have hsplit : (acct ++ ".dkr.ecr." ++ region ++ ".amazonaws.com/" ++ rest).data
      = (acct.data ++ ".dkr.ecr.".data)
        ++ (region.data ++ (".amazon".data ++ ("aws.com/".data ++ rest.data))) := by
    simp only [data_append, List.append_assoc]
    rfl
  constructor
  · unfold base_account
    rw [hsplit, List.append_assoc, List.take_left' h12]
  · have h21 : (acct.data ++ ".dkr.ecr.".data).length = 21 := by
      simp [h12]
    have hdrop : (acct ++ ".dkr.ecr." ++ region ++ ".amazonaws.com/" ++ rest).data.drop 21
        = region.data ++ (".amazon".data ++ ("aws.com/".data ++ rest.data)) := by
      rw [hsplit, List.drop_left' h21]
    have hreg : splitLastPat (".amazon".data)
        ((acct ++ ".dkr.ecr." ++ region ++ ".amazonaws.com/" ++ rest).data.drop 21)
        = some region.data := by
      rw [hdrop]
      exact splitLastPat_append (".amazon".data) region.data
        ("aws.com/".data ++ rest.data) '.' ("amazon".data) rfl hno
    unfold base_region
    rw [hreg]

/-- C6 witness: the account and region of the us-west-2 public XGBoost
image reference. -/
theorem c6_base_account_region_witness :
    base_account "246618743249.dkr.ecr.us-west-2.amazonaws.com/sagemaker-xgboost:1.2-2"
      = "246618743249" ∧
    base_region "246618743249.dkr.ecr.us-west-2.amazonaws.com/sagemaker-xgboost:1.2-2"
      = "us-west-2" :=
  c6_base_account_region "246618743249" "us-west-2" "sagemaker-xgboost:1.2-2"
    (by decide) (by decide)

/-- C2 counterexample: the build step is NOT invoked with exactly the
located directory path — the script appends "/algorithm_mode" to it, so
for the located path of the base image the passed value differs from the
located path itself. -/
theorem c2_build_arg_counterexample :
    dockerBuildArgs "/miniconda3/lib/python3.7/site-packages/sagemaker_xgboost_container"
      ≠ [("xgboost_path",
          "/miniconda3/lib/python3.7/site-packages/sagemaker_xgboost_container")] := by
  decide

/-- C2 (amended): the image build step is invoked with a single
build-time string parameter, whose value is the located directory path
with "/algorithm_mode" appended. -/
theorem c2_build_arg_amended (located : String) :
    dockerBuildArgs located = [("xgboost_path", located ++ "/algorithm_mode")] ∧
    (dockerBuildArgs located).length = 1 :=
  ⟨rfl, rfl⟩

/-- C3: repository creation is invoked exactly when the
immediately preceding existence check fails, and a re-run against the
resulting registry state (which now holds the repository) never invokes
creation again. -/
theorem c3_conditional_creation (repos : List String) (name : String) :
    (ensureRepository repos name).2 = !(describeRepositoriesOk repos name) ∧
    (ensureRepository ((ensureRepository repos name).1) name).2 = false := by
  unfold ensureRepository describeRepositoriesOk
  by_cases h : name ∈ repos
  · simp [h]
  · simp [h]

/-- C4 counterexample: a row consisting of exactly
[prediction, base_value, 8 attribution values] (ten fields) cannot be
consumed by the result-tabulation step, whose column selection
[0,1,3,...,10] requires an eleventh field; so the output rows do not
consist of exactly those columns. -/
theorem c4_row_format_counterexample :
    tabulateRow ["9.34", "10.21", "s1", "s2", "s3", "s4", "s5", "s6", "s7", "s8"]
      = none ∧
    tabulateRow ["9.34", "10.21", "s1", "s2", "s3", "s4", "s5", "s6", "s7", "s8"]
      ≠ some ["9.34", "10.21", "s1", "s2", "s3", "s4", "s5", "s6", "s7", "s8"] := by
  decide

/-- C4 (amended): each comma-separated, headerless output row consists of
the columns [prediction, base_value, always-zero label, 8 attribution
values]; the result-tabulation step keeps exactly
[prediction, base_value, 8 attribution values] in that order, skipping
the label column, under its 10 column names. -/
theorem c4_row_format_amended (pred base lab a1 a2 a3 a4 a5 a6 a7 a8 : String) :
    tabulateRow [pred, base, lab, a1, a2, a3, a4, a5, a6, a7, a8]
      = some [pred, base, a1, a2, a3, a4, a5, a6, a7, a8] ∧
    parseCsvLine "9.34,10.21,0.0,b1,b2,b3,b4,b5,b6,b7,b8"
      = ["9.34", "10.21", "0.0", "b1", "b2", "b3", "b4", "b5", "b6", "b7", "b8"] ∧
    colNames.length = usecolsList.length :=
  ⟨rfl, by decide, rfl⟩

/-- C7: a non-empty first argument is used as the base image reference
as is; with no argument the reference is read from the handoff file
`base_image_uri.txt`, whose contents are exactly what the orchestration
step wrote. -/
theorem c7_base_image_source (arg file_contents uri : String) (h : arg ≠ "") :
    scriptBaseImage (some arg) file_contents = arg ∧
    scriptBaseImage none (writeBaseImageUri uri) = uri := by
  constructor
  · unfold scriptBaseImage
    simp [h]
  · rfl

/-- C7 witness: a concrete non-empty argument wins over the file; with no
argument the written reference is used. -/
theorem c7_base_image_source_witness :
    scriptBaseImage (some "explicit-image:tag") "file-image:tag" = "explicit-image:tag" ∧
    scriptBaseImage none
        (writeBaseImageUri "246618743249.dkr.ecr.us-west-2.amazonaws.com/sagemaker-xgboost:1.2-2")
      = "246618743249.dkr.ecr.us-west-2.amazonaws.com/sagemaker-xgboost:1.2-2" :=
  c7_base_image_source "explicit-image:tag" "file-image:tag"
    "246618743249.dkr.ecr.us-west-2.amazonaws.com/sagemaker-xgboost:1.2-2" (by decide)

/-- C8: for a base reference of the documented shape, the rebuilt image
is tagged and pushed under exactly
`<account>.dkr.ecr.<region>.amazonaws.com/custom_images/<algorithm>-<version>`,
with the parsed algorithm name and version. -/
theorem c8_fullname_shape (account region p name tag : String)
    (h1 : hasCharL '/' name.data = false)
    (h4 : hasCharL ':' tag.data = false) :
    fullname account region (p ++ "/" ++ name ++ ":" ++ tag)
      = account ++ ".dkr.ecr." ++ region ++ ".amazonaws.com/custom_images/"
        ++ name ++ "-" ++ tag := by
  obtain ⟨ha, hv⟩ := parse_shape p name tag h1 h4
  unfold fullname repoName namespaceVar
  rw [ha, hv]
  apply str_ext
  simp only [data_append, List.append_assoc]
  rfl

/-- C8 witness: the push target for the us-west-2 public XGBoost image in
a concrete destination account and region. -/
theorem c8_fullname_shape_witness :
    fullname "111122223333" "eu-west-1"
        "246618743249.dkr.ecr.us-west-2.amazonaws.com/sagemaker-xgboost:1.2-2"
      = "111122223333.dkr.ecr.eu-west-1.amazonaws.com/custom_images/sagemaker-xgboost-1.2-2" :=
  c8_fullname_shape "111122223333" "eu-west-1"
    "246618743249.dkr.ecr.us-west-2.amazonaws.com" "sagemaker-xgboost" "1.2-2"
    (by decide) (by decide)

/-- C9: the staging loop copies exactly the three categories train, test,
validation, with source key `<data_prefix>/<category>/abalone.<category>`
and destination key `<output_prefix>/<category>/abalone.<category>` for
each. -/
theorem c9_copy_keys ( data_prefix output_prefix : String) :
    copyOps data_prefix output_prefix =
      [( data_prefix ++ "/train/abalone.train", output_prefix ++ "/train/abalone.train"),
       ( data_prefix ++ "/test/abalone.test", output_prefix ++ "/test/abalone.test"),
       ( data_prefix ++ "/validation/abalone.validation",
        output_prefix ++ "/validation/abalone.validation")] := by
  unfold copyOps categories dataKey outputKey
  simp only [List.map]
  apply congrArg₂ _ ?_ (congrArg₂ _ ?_ (congrArg₂ _ ?_ rfl)) <;>
    refine congrArg₂ _ ?_ ?_ <;>
      · apply str_ext
        simp only [data_append, List.append_assoc]
        rfl

/-- C10 counterexample to "exactly when": with the same account and
region, a base reference whose repository segment parses to algorithm
"sagemaker" and version "xgboost-1.2-2" still pushes to the very name the
notebook constructs for version "1.2-2", even though the parsed algorithm
is not "sagemaker-xgboost". -/
theorem c10_name_agreement_counterexample :
    customContainer "123456789012" "us-east-1" "1.2-2"
      = fullname "123456789012" "us-east-1"
          "123456789012.dkr.ecr.us-east-1.amazonaws.com/sagemaker:xgboost-1.2-2" ∧
    scriptAlgorithm "123456789012.dkr.ecr.us-east-1.amazonaws.com/sagemaker:xgboost-1.2-2"
      ≠ "sagemaker-xgboost" := by
  decide

/-- C10 (amended): whenever the base reference parses to algorithm
"sagemaker-xgboost" and to the notebook's version tag, the name the
notebook constructs and submits for training equals the name the script
pushes (same account and region); the converse does not hold, as the two
computations are independent and other parses can produce the same name. -/
theorem c10_name_agreement_amended (account region base_image version : String)
    (h1 : scriptAlgorithm base_image = "sagemaker-xgboost")
    (h2 : scriptVersion base_image = version) :
    customContainer account region version = fullname account region base_image := by
  unfold customContainer fullname repoName namespaceVar
  rw [h1, h2]
  apply str_ext
  simp only [data_append, List.append_assoc]
  rfl

/-- C10 witness: the notebook's name for version 1.2-2 equals the
script's push target for the matching public base reference. -/
theorem c10_name_agreement_amended_witness :
    customContainer "111122223333" "us-west-2" "1.2-2"
      = fullname "111122223333" "us-west-2"
          "246618743249.dkr.ecr.us-west-2.amazonaws.com/sagemaker-xgboost:1.2-2" :=
  c10_name_agreement_amended "111122223333" "us-west-2"
    "246618743249.dkr.ecr.us-west-2.amazonaws.com/sagemaker-xgboost:1.2-2" "1.2-2"
    (by decide) (by decide)
